import Mathlib

/-!
Verification of the copy-project tool of code-sandbox-mcp.

The repository ships two variants of `tools/copy-project.go`; we embed both.
Variant 1 ("V1") resolves an absent/empty/"." `dest_dir` to `/app` with a
contents-only flag; variant 2 ("V2") resolves an absent/empty `dest_dir` to
`/app/<basename>` and always nests archive entries under the source base name.

Shallow-embedding conventions:
* Go `filepath` functions (`Clean`, `Join`, `Base`, `Dir`) are re-implemented
  for slash-separated (Unix) paths, matching Go's documented semantics.
* The local filesystem is a `FileNode` tree; `filepath.Walk` is the pre-order
  traversal `walk`, which reports each visited entry's path relative to the
  walked root as a list of path components (the root itself is `[]`, which
  `filepath.Rel` renders as `"."`; a nested entry `[a, b]` renders as `"a/b"`).
  A directory's child list is taken in the order `filepath.Walk` visits it
  (lexical order of names), which is how a concrete filesystem is encoded.
* Docker API calls and `os.Stat` are oracles (functions supplied as
  parameters giving each call's outcome); the observable calls made by the
  code are recorded in an `Effect` list.
* Go's `(*mcp.CallToolResult, error)` return pair is `ToolResponse`, whose
  `err` field models the Go `error` result (`none` = `nil`).
-/

namespace CodeSandbox

/-! ### Go filepath model (slash-separated paths)

The string primitives (splitting on '/', joining with '/', prefix test) are
implemented over the character list of the string so that every path
function evaluates by kernel reduction on concrete inputs. -/

/-- Split a character list at every '/'. Always returns at least one
(possibly empty) segment, like Go `strings.Split`. -/
def splitSlashChars : List Char → List (List Char)
  | [] => [[]]
  | c :: rest =>
    if c = '/' then [] :: splitSlashChars rest
    else
      match splitSlashChars rest with
      | [] => [[c]]
      | h :: t => (c :: h) :: t

/-- Split a path into its '/'-separated segments. -/
def splitSlash (s : String) : List String :=
  (splitSlashChars s.data).map (fun l => String.mk l)

/-- Join segments with '/' (Go `strings.Join` with separator "/"). -/
def joinSlash : List String → String
  | [] => ""
  | [x] => x
  | x :: rest => x ++ "/" ++ joinSlash rest

/-- Go `strings.HasPrefix`. -/
def goStartsWith (s p : String) : Bool :=
  List.isPrefixOf p.data s.data

/-- One step of Go `filepath.Clean`'s component processing: skip empty and
`"."` components, let `".."` pop a previous component (or survive when there
is nothing to pop and the path is not rooted). `acc` is the output stack in
reverse order. -/
def cleanStep (rooted : Bool) (acc : List String) (c : String) : List String :=
  if c = "" ∨ c = "." then acc
  else if c = ".." then
    match acc with
    | [] => if rooted then [] else [".."]
    | a :: rest => if a = ".." then c :: a :: rest else rest
  else c :: acc

/-- Go `filepath.Clean` for slash-separated paths. -/
def goClean (path : String) : String :=
  if path = "" then "."
  else
    let rooted := goStartsWith path "/"
    let stack := ((splitSlash path).foldl (cleanStep rooted) []).reverse
    if rooted then "/" ++ joinSlash stack
    else if stack.isEmpty then "." else joinSlash stack

/-- Go `filepath.Join` of two elements: empty elements are dropped, the rest
are joined with "/" and the result is cleaned; all-empty input gives "". -/
def goJoin (a b : String) : String :=
  if a = "" ∧ b = "" then ""
  else if a = "" then goClean b
  else if b = "" then goClean a
  else goClean (a ++ "/" ++ b)

/-- Go `filepath.Base`: the last non-empty path component; "." for the empty
path; "/" for an all-slash path. -/
def goBase (path : String) : String :=
  if path = "" then "."
  else
    match ((splitSlash path).filter (fun c => c != "")).getLast? with
    | some c => c
    | none => "/"

/-- Go `filepath.Dir`: everything before the final component, cleaned; "."
when the path has no slash. -/
def goDir (path : String) : String :=
  match splitSlash path with
  | [] => "."
  | [_] => "."
  | comps => goClean (joinSlash comps.dropLast ++ "/")

/-! ### Local filesystem trees and filepath.Walk -/

/-- A node of the local filesystem: a regular file with its bytes, or a
directory with named children (listed in the order `filepath.Walk` visits
them). Symlink-free trees; the claims under verification quantify over
regular files and directories. -/
inductive FileNode where
  | file (content : List Nat)
  | dir (children : List (String × FileNode))

/-- Whether the node is a directory (the mode bit captured in the tar
header's type flag). -/
def FileNode.isDir : FileNode → Bool
  | .file _ => false
  | .dir _ => true

/-- The bytes written after the header: a regular file's content verbatim,
nothing for a directory. -/
def FileNode.contentBytes : FileNode → List Nat
  | .file c => c
  | .dir _ => []

mutual

/-- `filepath.Walk` from a node whose path relative to the walked root is
`rel`: the node itself first, then its children depth-first. -/
def walkFrom (rel : List String) : FileNode → List (List String × FileNode)
  | .file c => [(rel, .file c)]
  | .dir cs => (rel, .dir cs) :: walkChildren rel cs

/-- The walk of a directory's children, each child `n` at relative path
`rel ++ [n]`. -/
def walkChildren (rel : List String) : List (String × FileNode) → List (List String × FileNode)
  | [] => []
  | (n, t) :: rest => walkFrom (rel ++ [n]) t ++ walkChildren rel rest

end

/-- `filepath.Walk` of the whole tree: the root has relative path `[]`
(rendered "." by `filepath.Rel`). -/
def walk (t : FileNode) : List (List String × FileNode) := walkFrom [] t

mutual

/-- The filesystem entries strictly under a root, as (relative path, node)
pairs: the source-tree enumeration the archive is checked against. Defined by
direct recursion on the tree, independently of `walk`. -/
def treeEntries : FileNode → List (List String × FileNode)
  | .file _ => []
  | .dir cs => treeEntriesChildren cs

/-- Entries contributed by a child list: each child itself, then its own
entries prefixed with its name. -/
def treeEntriesChildren : List (String × FileNode) → List (List String × FileNode)
  | [] => []
  | (n, c) :: rest =>
      ([n], c) :: ((treeEntries c).map (fun e => (n :: e.1, e.2)) ++ treeEntriesChildren rest)

end

/-! ### createTarArchive -/

/-- Rendering of a `filepath.Rel` result: the root is ".", other paths join
their components with "/". -/
def renderRel (comps : List String) : String :=
  if comps.isEmpty then "." else joinSlash comps

/-- A tar entry as materialized by `tar.NewWriter`: the header name, the
directory flag and the content bytes that follow the header. -/
structure TarEntry where
  name : String
  isDir : Bool
  content : List Nat
deriving DecidableEq

/-- The header name assigned in V1's `createTarArchive`: the relative path
itself in contents-only mode, else `filepath.Join(baseDir, relPath)`. -/
def tarHeaderName (baseDir : String) (copyContentsOnly : Bool) (rel : List String) : String :=
  if copyContentsOnly then renderRel rel else goJoin baseDir (renderRel rel)

/-- The body of V1's walk callback: skip the root (relative path "."), else
emit a tar entry for the visited node. -/
def tarStep (baseDir : String) (copyContentsOnly : Bool) (item : List String × FileNode) :
    Option TarEntry :=
  if item.1.isEmpty then none
  else some { name := tarHeaderName baseDir copyContentsOnly item.1,
              isDir := item.2.isDir, content := item.2.contentBytes }

/-- V1 `createTarArchive(srcPath, copyContentsOnly)`: clean the source path,
take its base name, walk the tree and run the callback on every visited
entry. -/
def createTarArchive (srcPath : String) (copyContentsOnly : Bool) (t : FileNode) :
    List TarEntry :=
  (walk t).filterMap (tarStep (goBase (goClean srcPath)) copyContentsOnly)

/-- The body of V2's walk callback: skip the root, else emit an entry always
named `filepath.Join(baseDir, relPath)` (V2 has no contents-only mode). -/
def tarStepV2 (baseDir : String) (item : List String × FileNode) : Option TarEntry :=
  if item.1.isEmpty then none
  else some { name := goJoin baseDir (renderRel item.1),
              isDir := item.2.isDir, content := item.2.contentBytes }

/-- V2 `createTarArchive(srcPath)`. -/
def createTarArchiveV2 (srcPath : String) (t : FileNode) : List TarEntry :=
  (walk t).filterMap (tarStepV2 (goBase (goClean srcPath)))

/-! ### CopyProject: arguments, oracles, effects -/

/-- The result of looking up one key in `request.Params.Arguments` and
asserting it to `string`: the key can be absent, hold a non-string value, or
hold a string. -/
inductive ArgLookup where
  | missing
  | notString
  | str (s : String)
deriving DecidableEq

/-- Go's `v, ok := args[k].(string)`: `ok` is false (modelled `none`) for a
missing key or a non-string value. -/
def ArgLookup.asString : ArgLookup → Option String
  | .str s => some s
  | _ => none

/-- Outcome of `os.Stat` on the cleaned source path: an error (e.g. the
path does not exist), a non-directory entry, or a directory holding tree
`t`. -/
inductive StatResult where
  | statErr (msg : String)
  | fileInfo
  | dirInfo (t : FileNode)

/-- Oracle for the Docker API calls the code makes; each field gives the
error of the corresponding call (`none` = success). -/
structure DockerOracle where
  newClientErr : Option String
  inspectErr : String → Option String
  mkdirErr : String → Option String
  copyErr : String → String → Option String

/-- Observable calls of one invocation, in program order. `copyFn` marks a
call of the Go function `copyToContainer` (with the target path it was given
and the archive streamed); `copyCall` marks the `cli.CopyToContainer` API
call inside it. -/
inductive Effect where
  | statSrc (path : String)
  | walkSrc (path : String)
  | connectRuntime
  | inspectContainer (id : String)
  | execMkdir (destPath : String)
  | copyFn (id : String) (destPath : String) (archive : List TarEntry)
  | copyCall (id : String) (destPath : String) (archive : List TarEntry)
deriving DecidableEq

/-- Go's `(*mcp.CallToolResult, error)` pair: the text of the returned
`mcp.NewToolResultText` and the `error` result (`none` models `nil`). -/
structure ToolResponse where
  text : String
  err : Option String
deriving DecidableEq

/-- V1 destination resolution: absent / "" / "." activate contents-only mode
with destination `/app`; other relative paths are joined under `/app`;
absolute paths are used as-is. Returns (destDir, copyToHomeDir). -/
def resolveDestV1 : Option String → String × Bool
  | none => ("/app", true)
  | some d =>
    if d = "" ∨ d = "." then ("/app", true)
    else if goStartsWith d "/" then (d, false)
    else (goJoin "/app" d, false)

/-- V2 destination resolution (`src` is the cleaned source path): absent or
"" default to `/app/<basename of src>`; other relative paths are joined
under `/app`; absolute paths are used as-is. -/
def resolveDestV2 (src : String) : Option String → String
  | none => goJoin "/app" (goBase src)
  | some d =>
    if d = "" then goJoin "/app" (goBase src)
    else if goStartsWith d "/" then d
    else goJoin "/app" d

/-- V1 `copyToContainer`: create the Docker client, inspect the container,
then stream the archive to `cli.CopyToContainer` (Docker auto-creates parent
directories). Every return path has the client released; the effect list
records the calls actually made. -/
def copyToContainerV1 (d : DockerOracle) (cid destPath : String) (archive : List TarEntry) :
    Except String Unit × List Effect :=
  match d.newClientErr with
  | some e =>
      (.error ("failed to create Docker client: " ++ e),
       [.copyFn cid destPath archive, .connectRuntime])
  | none =>
    match d.inspectErr cid with
    | some e =>
        (.error ("failed to inspect container: " ++ e),
         [.copyFn cid destPath archive, .connectRuntime, .inspectContainer cid])
    | none =>
      match d.copyErr cid destPath with
      | some e =>
          (.error ("failed to copy to container: " ++ e),
           [.copyFn cid destPath archive, .connectRuntime, .inspectContainer cid,
            .copyCall cid destPath archive])
      | none =>
          (.ok (),
           [.copyFn cid destPath archive, .connectRuntime, .inspectContainer cid,
            .copyCall cid destPath archive])

/-- V2 `copyToContainer`: like V1 but it first runs `mkdir -p destPath`
inside the container (via `executeCommand`, abstracted by the `mkdirErr`
oracle) before streaming the archive. -/
def copyToContainerV2 (d : DockerOracle) (cid destPath : String) (archive : List TarEntry) :
    Except String Unit × List Effect :=
  match d.newClientErr with
  | some e =>
      (.error ("failed to create Docker client: " ++ e),
       [.copyFn cid destPath archive, .connectRuntime])
  | none =>
    match d.inspectErr cid with
    | some e =>
        (.error ("failed to inspect container: " ++ e),
         [.copyFn cid destPath archive, .connectRuntime, .inspectContainer cid])
    | none =>
      match d.mkdirErr destPath with
      | some e =>
          (.error ("failed to create destination directory: " ++ e),
           [.copyFn cid destPath archive, .connectRuntime, .inspectContainer cid,
            .execMkdir destPath])
      | none =>
        match d.copyErr cid destPath with
        | some e =>
            (.error ("failed to copy to container: " ++ e),
             [.copyFn cid destPath archive, .connectRuntime, .inspectContainer cid,
              .execMkdir destPath, .copyCall cid destPath archive])
        | none =>
            (.ok (),
             [.copyFn cid destPath archive, .connectRuntime, .inspectContainer cid,
              .execMkdir destPath, .copyCall cid destPath archive])

/-- V1 `CopyProject`: validate arguments, clean and stat the source, resolve
the destination, build the archive, and stream it to the destination itself
in contents-only mode or to the destination's parent in nested mode. Every
return is a text result paired with a `nil` Go error. -/
def CopyProjectV1 (fs : String → StatResult) (d : DockerOracle)
    (containerArg srcArg destArg : ArgLookup) : ToolResponse × List Effect :=
  match containerArg.asString with
  | none => ({ text := "container_id is required", err := none }, [])
  | some cid =>
    if cid = "" then ({ text := "container_id is required", err := none }, [])
    else
      match srcArg.asString with
      | none => ({ text := "local_src_dir is required", err := none }, [])
      | some src0 =>
        if src0 = "" then ({ text := "local_src_dir is required", err := none }, [])
        else
          let src := goClean src0
          match fs src with
          | .statErr e =>
              ({ text := "Error accessing source directory: " ++ e, err := none },
               [.statSrc src])
          | .fileInfo =>
              ({ text := "local_src_dir must be a directory", err := none },
               [.statSrc src])
          | .dirInfo t =>
            let dp := resolveDestV1 destArg.asString
            let archive := createTarArchive src dp.2 t
            let targetPath := if dp.2 then dp.1 else goDir dp.1
            let cr := copyToContainerV1 d cid targetPath archive
            let effs := Effect.statSrc src :: Effect.walkSrc src :: cr.2
            match cr.1 with
            | .error e => ({ text := "Error copying to container: " ++ e, err := none }, effs)
            | .ok _ =>
                ({ text := "Successfully copied " ++ src ++ " to " ++ dp.1 ++
                     " in container " ++ cid, err := none }, effs)

/-- V2 `CopyProject`: same validation, V2 destination resolution, always
nested archive, always streamed to the destination's parent directory. -/
def CopyProjectV2 (fs : String → StatResult) (d : DockerOracle)
    (containerArg srcArg destArg : ArgLookup) : ToolResponse × List Effect :=
  match containerArg.asString with
  | none => ({ text := "container_id is required", err := none }, [])
  | some cid =>
    if cid = "" then ({ text := "container_id is required", err := none }, [])
    else
      match srcArg.asString with
      | none => ({ text := "local_src_dir is required", err := none }, [])
      | some src0 =>
        if src0 = "" then ({ text := "local_src_dir is required", err := none }, [])
        else
          let src := goClean src0
          match fs src with
          | .statErr e =>
              ({ text := "Error accessing source directory: " ++ e, err := none },
               [.statSrc src])
          | .fileInfo =>
              ({ text := "local_src_dir must be a directory", err := none },
               [.statSrc src])
          | .dirInfo t =>
            let destDir := resolveDestV2 src destArg.asString
            let archive := createTarArchiveV2 src t
            let parentDir := goDir destDir
            let cr := copyToContainerV2 d cid parentDir archive
            let effs := Effect.statSrc src :: Effect.walkSrc src :: cr.2
            match cr.1 with
            | .error e => ({ text := "Error copying to container: " ++ e, err := none }, effs)
            | .ok _ =>
                ({ text := "Successfully copied " ++ src ++ " to " ++ destDir ++
                     " in container " ++ cid, err := none }, effs)

/-! ### executeCommand -/

/-- One `ContainerExecInspect` response: whether the exec session is still
running, and its exit code. -/
structure ExecInspect where
  running : Bool
  exitCode : Int
deriving DecidableEq

/-- The polling loop of `executeCommand`, consuming the sequence of inspect
responses the runtime will give. On a not-running report with non-zero exit
code it returns the error built from the exit code and the buffers (stderr
preferred when non-empty, else stdout); with exit code zero it succeeds.
`none` models the loop polling forever (the oracle sequence keeps reporting
`running`). -/
def pollLoop (stdoutBuf stderrBuf : String) :
    List (Except String ExecInspect) → Option (Except String Unit)
  | [] => none
  | .error e :: _ => some (.error ("failed to inspect exec: " ++ e))
  | .ok i :: rest =>
    if i.running then pollLoop stdoutBuf stderrBuf rest
    else if i.exitCode ≠ 0 then
      some (.error ("command exited with code " ++ toString i.exitCode ++ ": " ++
        (if stderrBuf ≠ "" then stderrBuf else stdoutBuf)))
    else some (.ok ())

/-- `executeCommand`: create the client, create the exec session, attach,
then poll. The background drain `io.Copy(&stdout, attach.Reader)` copies the
attached stream only into the stdout buffer (`streamed` is its content);
the stderr buffer is declared but nothing ever writes to it, so the poll
loop always sees it empty. -/
def executeCommand (clientErr execCreateErr attachErr : Option String)
    (streamed : String) (inspects : List (Except String ExecInspect)) :
    Option (Except String Unit) :=
  match clientErr with
  | some e => some (.error ("failed to create Docker client: " ++ e))
  | none =>
    match execCreateErr with
    | some e => some (.error ("failed to create exec: " ++ e))
    | none =>
      match attachErr with
      | some e => some (.error ("failed to attach to exec: " ++ e))
      | none => pollLoop streamed "" inspects

/-! ### Concrete fixtures used by witness theorems -/

/-- A Docker oracle on which every API call succeeds. -/
def oracleOk : DockerOracle :=
  { newClientErr := none, inspectErr := fun _ => none,
    mkdirErr := fun _ => none, copyErr := fun _ _ => none }

/-- A two-level sample tree: proj/{a.txt, sub/b.txt}. -/
def sampleTree : FileNode :=
  .dir [("a.txt", .file [104, 105]), ("sub", .dir [("b.txt", .file [3])])]

/-- A local filesystem where `proj` is a directory holding `sampleTree`. -/
def fsSample : String → StatResult :=
  fun p => if p = "proj" then .dirInfo sampleTree else .statErr "no such file or directory"

/-- A local filesystem where every stat fails. -/
def fsMissing : String → StatResult :=
  fun _ => .statErr "no such file or directory"

/-- A local filesystem where every path is a regular file. -/
def fsFile : String → StatResult :=
  fun _ => .fileInfo

/-! ### Structural lemmas: the walk visits the root and then exactly the
source-tree entries -/

mutual

theorem walkFrom_eq (rel : List String) (t : FileNode) :
    walkFrom rel t = (rel, t) :: (treeEntries t).map (fun e => (rel ++ e.1, e.2)) := by
  cases t with
  | file c => simp [walkFrom, treeEntries]
  | dir cs =>
      rw [walkFrom, treeEntries, walkChildren_eq rel cs]

theorem walkChildren_eq (rel : List String) (cs : List (String × FileNode)) :
    walkChildren rel cs = (treeEntriesChildren cs).map (fun e => (rel ++ e.1, e.2)) := by
  cases cs with
  | nil => simp [walkChildren, treeEntriesChildren]
  | cons hd rest =>
      cases hd with
      | mk n c =>
          rw [walkChildren, treeEntriesChildren,
            walkFrom_eq (rel ++ [n]) c, walkChildren_eq rel rest]
          simp [List.map_map, Function.comp, List.append_assoc]

end

theorem walk_eq (t : FileNode) : walk t = ([], t) :: treeEntries t := by
  rw [walk, walkFrom_eq]
  simp

mutual

theorem treeEntries_fst_ne_nil (t : FileNode) :
    ∀ e ∈ treeEntries t, e.1 ≠ [] := by
  cases t with
  | file c => intro e he; simp [treeEntries] at he
  | dir cs => exact fun e he => treeEntriesChildren_fst_ne_nil cs e he

theorem treeEntriesChildren_fst_ne_nil (cs : List (String × FileNode)) :
    ∀ e ∈ treeEntriesChildren cs, e.1 ≠ [] := by
  cases cs with
  | nil => intro e he; simp [treeEntriesChildren] at he
  | cons hd rest =>
      cases hd with
      | mk n c =>
          intro e he
          rw [treeEntriesChildren] at he
          rcases List.mem_cons.mp he with h1 | h2
          · subst h1; simp
          · rcases List.mem_append.mp h2 with h3 | h4
            · rcases List.mem_map.mp h3 with ⟨a, _, ha⟩
              subst ha; simp
            · exact treeEntriesChildren_fst_ne_nil rest e h4

end

theorem filterMap_tarStep (b : String) (co : Bool) (l : List (List String × FileNode))
    (h : ∀ e ∈ l, e.1 ≠ []) :
    l.filterMap (tarStep b co) = l.map (fun e =>
      { name := tarHeaderName b co e.1, isDir := e.2.isDir,
        content := e.2.contentBytes : TarEntry }) := by
  induction l with
  | nil => rfl
  | cons a l ih =>
      have ha : a.1.isEmpty = false := by
        have hne := h a (List.mem_cons_self a l)
        cases hx : a.1
        · exact absurd hx hne
        · rfl
      rw [List.filterMap_cons, List.map_cons]
      simp only [tarStep, ha, if_false, Bool.false_eq_true]
      rw [ih fun e he => h e (List.mem_cons_of_mem a he)]

theorem filterMap_tarStepV2 (b : String) (l : List (List String × FileNode))
    (h : ∀ e ∈ l, e.1 ≠ []) :
    l.filterMap (tarStepV2 b) = l.map (fun e =>
      { name := goJoin b (renderRel e.1), isDir := e.2.isDir,
        content := e.2.contentBytes : TarEntry }) := by
  induction l with
  | nil => rfl
  | cons a l ih =>
      have ha : a.1.isEmpty = false := by
        have hne := h a (List.mem_cons_self a l)
        cases hx : a.1
        · exact absurd hx hne
        · rfl
      rw [List.filterMap_cons, List.map_cons]
      simp only [tarStepV2, ha, if_false, Bool.false_eq_true]
      rw [ih fun e he => h e (List.mem_cons_of_mem a he)]

/-- The archive of V1 is exactly one tar entry per source-tree entry, in walk
order, with the mode-dependent header name and the node's verbatim bytes. -/
theorem createTarArchive_entries (srcPath : String) (co : Bool) (t : FileNode) :
    createTarArchive srcPath co t =
      (treeEntries t).map (fun e =>
        { name := tarHeaderName (goBase (goClean srcPath)) co e.1,
          isDir := e.2.isDir, content := e.2.contentBytes }) := by
  rw [createTarArchive, walk_eq, List.filterMap_cons]
  have h0 : tarStep (goBase (goClean srcPath)) co ([], t) = none := by
    simp [tarStep]
  rw [h0, filterMap_tarStep _ _ _ (treeEntries_fst_ne_nil t)]

/-- The archive of V2 is exactly one tar entry per source-tree entry, always
nested under the source base name. -/
theorem createTarArchiveV2_entries (srcPath : String) (t : FileNode) :
    createTarArchiveV2 srcPath t =
      (treeEntries t).map (fun e =>
        { name := goJoin (goBase (goClean srcPath)) (renderRel e.1),
          isDir := e.2.isDir, content := e.2.contentBytes }) := by
  rw [createTarArchiveV2, walk_eq, List.filterMap_cons]
  have h0 : tarStepV2 (goBase (goClean srcPath)) ([], t) = none := by
    simp [tarStepV2]
  rw [h0, filterMap_tarStepV2 _ _ (treeEntries_fst_ne_nil t)]

/-! ### Claim theorems -/

/-- C1: for every source directory tree, the tar archive produced by
`createTarArchive` (either variant, either mode) contains exactly one entry
per filesystem entry under the root — the entry list is the map of the
source-tree entry list, so archive entries and source entries correspond
one to one with the same relative paths — and every regular-file entry's
content bytes are the corresponding source node's bytes verbatim. -/
theorem createTarArchive_roundtrip (srcPath : String) (co : Bool) (t : FileNode) :
    createTarArchive srcPath co t =
      (treeEntries t).map (fun e =>
        { name := tarHeaderName (goBase (goClean srcPath)) co e.1,
          isDir := e.2.isDir, content := e.2.contentBytes })
    ∧ createTarArchiveV2 srcPath t =
      (treeEntries t).map (fun e =>
        { name := goJoin (goBase (goClean srcPath)) (renderRel e.1),
          isDir := e.2.isDir, content := e.2.contentBytes }) :=
  ⟨createTarArchive_entries srcPath co t, createTarArchiveV2_entries srcPath t⟩

/-- C2: the walk always visits the root first, with relative path `[]`
(which `filepath.Rel` renders as "."); in both variants and both modes the
archive equals the archive of the walk's tail — the root contributes no
entry — while every other walked entry contributes exactly one, so the
archive never contains an entry for the walked root directory itself. -/
theorem createTarArchive_skips_root (srcPath : String) (co : Bool) (t : FileNode) :
    (walk t).head? = some ([], t)
    ∧ renderRel [] = "."
    ∧ createTarArchive srcPath co t =
        (walk t).tail.filterMap (tarStep (goBase (goClean srcPath)) co)
    ∧ (createTarArchive srcPath co t).length = (walk t).tail.length
    ∧ createTarArchiveV2 srcPath t =
        (walk t).tail.filterMap (tarStepV2 (goBase (goClean srcPath)))
    ∧ (createTarArchiveV2 srcPath t).length = (walk t).tail.length := by
  have hw := walk_eq t
  refine ⟨by rw [hw]; rfl, rfl, ?_, ?_, ?_, ?_⟩
  · rw [createTarArchive, hw, List.filterMap_cons]
    have h0 : tarStep (goBase (goClean srcPath)) co ([], t) = none := by simp [tarStep]
    rw [h0]
    rfl
  · rw [createTarArchive_entries, hw]
    simp
  · rw [createTarArchiveV2, hw, List.filterMap_cons]
    have h0 : tarStepV2 (goBase (goClean srcPath)) ([], t) = none := by simp [tarStepV2]
    rw [h0]
    rfl
  · rw [createTarArchiveV2_entries, hw]
    simp


/-- C3: destination resolution. In both variants: an absent `dest_dir`
defaults to `/app` (V1) or to `/app/<basename>` under it (V2); a relative
`dest_dir` resolves to `filepath.Join("/app", dest_dir)`; an absolute
`dest_dir` is used unchanged. -/
theorem dest_resolution_policy (dst src : String) :
    resolveDestV1 none = ("/app", true)
    ∧ (goStartsWith dst "/" = false → (resolveDestV1 (some dst)).1 = goJoin "/app" dst)
    ∧ (goStartsWith dst "/" = true → resolveDestV1 (some dst) = (dst, false))
    ∧ resolveDestV2 src none = goJoin "/app" (goBase src)
    ∧ (goStartsWith dst "/" = false → dst ≠ "" →
        resolveDestV2 src (some dst) = goJoin "/app" dst)
    ∧ (goStartsWith dst "/" = true → resolveDestV2 src (some dst) = dst) := by
  refine ⟨rfl, ?_, ?_, rfl, ?_, ?_⟩
  · intro hs
    by_cases h0 : dst = ""
    · subst h0; decide
    · by_cases h1 : dst = "."
      · subst h1; decide
      · simp [resolveDestV1, h0, h1, hs]
  · intro hs
    have h0 : dst ≠ "" := by
      intro h; subst h; exact absurd hs (by decide)
    have h1 : dst ≠ "." := by
      intro h; subst h; exact absurd hs (by decide)
    simp [resolveDestV1, h0, h1, hs]
  · intro hs h0
    simp [resolveDestV2, h0, hs]
  · intro hs
    have h0 : dst ≠ "" := by
      intro h; subst h; exact absurd hs (by decide)
    simp [resolveDestV2, h0, hs]

/-- Witness for C3: `dest_resolution_policy` applied at the concrete inputs
"x" (relative), "/data" (absolute) and source "proj". -/
theorem dest_resolution_policy_witness :
    (resolveDestV1 (some "x")).1 = goJoin "/app" "x"
    ∧ resolveDestV1 (some "/data") = ("/data", false)
    ∧ resolveDestV2 "proj" (some "x") = goJoin "/app" "x"
    ∧ resolveDestV2 "proj" (some "/data") = "/data" :=
  ⟨(dest_resolution_policy "x" "proj").2.1 (by decide),
   (dest_resolution_policy "/data" "proj").2.2.1 (by decide),
   (dest_resolution_policy "x" "proj").2.2.2.2.1 (by decide) (by decide),
   (dest_resolution_policy "/data" "proj").2.2.2.2.2 (by decide)⟩

/-- C5: a missing, non-string or empty `container_id` makes both variants
return the error text immediately; the empty effect list shows that no
filesystem walk and no archive construction is performed. -/
theorem missing_container_id_short_circuits (fs : String → StatResult) (d : DockerOracle)
    (ca sa da : ArgLookup) (h : ca.asString = none ∨ ca = ArgLookup.str "") :
    CopyProjectV1 fs d ca sa da = ({ text := "container_id is required", err := none }, [])
    ∧ CopyProjectV2 fs d ca sa da
        = ({ text := "container_id is required", err := none }, []) := by
  rcases h with h | h
  · cases ca with
    | missing => exact ⟨rfl, rfl⟩
    | notString => exact ⟨rfl, rfl⟩
    | str s => exact absurd h (by simp [ArgLookup.asString])
  · subst h
    exact ⟨rfl, rfl⟩

/-- Witness for C5: a missing `container_id` with an otherwise valid
request. -/
theorem missing_container_id_witness :
    CopyProjectV1 fsSample oracleOk .missing (.str "proj") .missing
      = ({ text := "container_id is required", err := none }, [])
    ∧ CopyProjectV2 fsSample oracleOk .missing (.str "proj") .missing
      = ({ text := "container_id is required", err := none }, []) :=
  missing_container_id_short_circuits fsSample oracleOk .missing (.str "proj") .missing
    (Or.inl rfl)

/-- C6: a source path whose stat fails, or that names a non-directory, makes
both variants fail with the source-error text right after the stat: the
effect list holds only the stat, so no Docker client is created and
`copyToContainer` is never called. -/
theorem bad_source_short_circuits (fs : String → StatResult) (d : DockerOracle)
    (cid src0 : String) (da : ArgLookup) (e : String)
    (hcid : cid ≠ "") (hsrc : src0 ≠ "") :
    (fs (goClean src0) = StatResult.statErr e →
      CopyProjectV1 fs d (.str cid) (.str src0) da
        = ({ text := "Error accessing source directory: " ++ e, err := none },
           [Effect.statSrc (goClean src0)])
      ∧ CopyProjectV2 fs d (.str cid) (.str src0) da
        = ({ text := "Error accessing source directory: " ++ e, err := none },
           [Effect.statSrc (goClean src0)]))
    ∧ (fs (goClean src0) = StatResult.fileInfo →
      CopyProjectV1 fs d (.str cid) (.str src0) da
        = ({ text := "local_src_dir must be a directory", err := none },
           [Effect.statSrc (goClean src0)])
      ∧ CopyProjectV2 fs d (.str cid) (.str src0) da
        = ({ text := "local_src_dir must be a directory", err := none },
           [Effect.statSrc (goClean src0)]))
    ∧ (∀ p a, Effect.copyFn cid p a ∉ [Effect.statSrc (goClean src0)])
    ∧ Effect.connectRuntime ∉ [Effect.statSrc (goClean src0)] := by
  refine ⟨?_, ?_, by simp, by simp⟩
  · intro hstat
    constructor
    · simp [CopyProjectV1, ArgLookup.asString, hcid, hsrc, hstat]
    · simp [CopyProjectV2, ArgLookup.asString, hcid, hsrc, hstat]
  · intro hstat
    constructor
    · simp [CopyProjectV1, ArgLookup.asString, hcid, hsrc, hstat]
    · simp [CopyProjectV2, ArgLookup.asString, hcid, hsrc, hstat]

/-- Witness for C6: a stat failure on V1 and V2 at concrete inputs. -/
theorem bad_source_short_circuits_witness :
    CopyProjectV1 fsMissing oracleOk (.str "c1") (.str "nope") .missing
      = ({ text := "Error accessing source directory: " ++ "no such file or directory",
           err := none },
         [Effect.statSrc (goClean "nope")])
    ∧ CopyProjectV2 fsMissing oracleOk (.str "c1") (.str "nope") .missing
      = ({ text := "Error accessing source directory: " ++ "no such file or directory",
           err := none },
         [Effect.statSrc (goClean "nope")]) := by
  have h := bad_source_short_circuits fsMissing oracleOk "c1" "nope" .missing
    "no such file or directory" (by decide) (by decide)
  exact h.1 rfl

/-- C9: in the contents-only variant, a `dest_dir` of "." is treated exactly
like an omitted `dest_dir` — the whole call behaves identically, the
destination defaults to `/app` with contents-only mode on — unlike every
other relative path, which is joined under `/app` with the flag off. -/
theorem dot_dest_dir_like_omitted :
    (∀ (fs : String → StatResult) (d : DockerOracle) (ca sa : ArgLookup),
      CopyProjectV1 fs d ca sa (ArgLookup.str ".")
        = CopyProjectV1 fs d ca sa ArgLookup.missing)
    ∧ resolveDestV1 (some ".") = ("/app", true)
    ∧ resolveDestV1 none = ("/app", true)
    ∧ (∀ dst : String, goStartsWith dst "/" = false → dst ≠ "" → dst ≠ "." →
        resolveDestV1 (some dst) = (goJoin "/app" dst, false)) := by
  refine ⟨?_, by decide, rfl, ?_⟩
  · intro fs d ca sa
    have hd : resolveDestV1 (some ".") = resolveDestV1 none := by decide
    simp only [CopyProjectV1, ArgLookup.asString, hd]
  · intro dst h1 h2 h3
    simp [resolveDestV1, h2, h3, h1]

/-- Witness for C9: "." behaves as omitted on a full concrete request, while
the relative path "data" is joined under /app with the flag off. -/
theorem dot_dest_dir_like_omitted_witness :
    CopyProjectV1 fsSample oracleOk (.str "c1") (.str "proj") (.str ".")
      = CopyProjectV1 fsSample oracleOk (.str "c1") (.str "proj") .missing
    ∧ resolveDestV1 (some "data") = (goJoin "/app" "data", false) :=
  ⟨dot_dest_dir_like_omitted.1 fsSample oracleOk (.str "c1") (.str "proj"),
   dot_dest_dir_like_omitted.2.2.2 "data" (by decide) (by decide) (by decide)⟩

/-- Helper: the poll loop passes over a prefix of still-running inspect
reports without producing a result. -/
theorem pollLoop_skip_running (so se : String) (pre l : List (Except String ExecInspect))
    (hpre : ∀ x ∈ pre, ∃ v, x = Except.ok v ∧ v.running = true) :
    pollLoop so se (pre ++ l) = pollLoop so se l := by
  induction pre with
  | nil => rfl
  | cons x pre ih =>
      obtain ⟨v, hx, hv⟩ := hpre x (List.mem_cons_self x pre)
      subst hx
      rw [List.cons_append]
      simp only [pollLoop, hv, if_true]
      exact ih fun y hy => hpre y (List.mem_cons_of_mem _ hy)

/-- C7: when the first not-running inspect report arrives, `executeCommand`'s
poll loop fails with an error carrying the exit code and an output chosen as
the captured stderr if non-empty, otherwise the captured stdout; with exit
code zero it returns no error. `executeCommand` runs exactly this loop on
its two capture buffers. -/
theorem executeCommand_exit_code (so se : String)
    (pre rest : List (Except String ExecInspect)) (i : ExecInspect)
    (hpre : ∀ x ∈ pre, ∃ v, x = Except.ok v ∧ v.running = true)
    (hi : i.running = false) :
    pollLoop so se (pre ++ Except.ok i :: rest)
      = (if i.exitCode ≠ 0
         then some (Except.error ("command exited with code " ++ toString i.exitCode
               ++ ": " ++ (if se ≠ "" then se else so)))
         else some (Except.ok ()))
    ∧ executeCommand none none none so (pre ++ Except.ok i :: rest)
      = pollLoop so "" (pre ++ Except.ok i :: rest) := by
  refine ⟨?_, rfl⟩
  rw [pollLoop_skip_running so se pre _ hpre]
  simp only [pollLoop, hi]
  rfl

/-- Witness for C7: one running report, then exit code 3 with a non-empty
stderr buffer. -/
theorem executeCommand_exit_code_witness :
    pollLoop "out" "boom" ([Except.ok ⟨true, 0⟩] ++ Except.ok ⟨false, 3⟩ :: [])
      = some (Except.error "command exited with code 3: boom")
    ∧ executeCommand none none none "out" ([Except.ok ⟨true, 0⟩] ++ Except.ok ⟨false, 3⟩ :: [])
      = pollLoop "out" "" ([Except.ok ⟨true, 0⟩] ++ Except.ok ⟨false, 3⟩ :: []) := by
  have h := executeCommand_exit_code "out" "boom" [Except.ok ⟨true, 0⟩] [] ⟨false, 3⟩
    (fun x hx => ⟨⟨true, 0⟩, by simpa using hx, rfl⟩) rfl
  refine ⟨?_, h.2⟩
  rw [h.1]
  rfl

/-- C10: the background drain of `executeCommand` copies the attached stream
only into the stdout buffer and nothing ever writes to the stderr buffer,
so every failing command's error output equals the stdout buffer's
contents. -/
theorem executeCommand_output_is_stdout (so : String)
    (pre rest : List (Except String ExecInspect)) (i : ExecInspect)
    (hpre : ∀ x ∈ pre, ∃ v, x = Except.ok v ∧ v.running = true)
    (hi : i.running = false) (hc : i.exitCode ≠ 0) :
    executeCommand none none none so (pre ++ Except.ok i :: rest)
      = some (Except.error ("command exited with code " ++ toString i.exitCode
          ++ ": " ++ so)) := by
  show pollLoop so "" (pre ++ Except.ok i :: rest) = _
  rw [pollLoop_skip_running so "" pre _ hpre]
  simp only [pollLoop, hi]
  simp [hc]

/-- Witness for C10: a failing command whose only captured output went to
stdout. -/
theorem executeCommand_output_is_stdout_witness :
    executeCommand none none none "build failed"
        ([Except.ok ⟨true, 0⟩] ++ Except.ok ⟨false, 2⟩ :: [])
      = some (Except.error ("command exited with code " ++ toString (2 : Int)
          ++ ": " ++ "build failed")) :=
  executeCommand_output_is_stdout "build failed" [Except.ok ⟨true, 0⟩] [] ⟨false, 2⟩
    (fun x hx => ⟨⟨true, 0⟩, by simpa using hx, rfl⟩) rfl (by decide)

/-- Helper: the string assertion on a string-valued argument yields it. -/
theorem asString_str (s : String) : (ArgLookup.str s).asString = some s := rfl

/-- Helper: every return path of V1 carries a nil Go error. -/
theorem CopyProjectV1_err_none (fs : String → StatResult) (d : DockerOracle)
    (ca sa da : ArgLookup) : (CopyProjectV1 fs d ca sa da).1.err = none := by
  simp only [CopyProjectV1]
  repeat' split
  all_goals rfl

/-- Helper: every return path of V2 carries a nil Go error. -/
theorem CopyProjectV2_err_none (fs : String → StatResult) (d : DockerOracle)
    (ca sa da : ArgLookup) : (CopyProjectV2 fs d ca sa da).1.err = none := by
  simp only [CopyProjectV2]
  repeat' split
  all_goals rfl

/-- C8: both variants always return a plain-text result paired with a nil Go
error — success and every failure class alike never propagate a non-nil
error to the caller — and when every stage succeeds the text names the
cleaned source path, the resolved destination and the container ID. -/
theorem copyproject_plain_text_contract (fs : String → StatResult) (d : DockerOracle)
    (ca sa da : ArgLookup) :
    (CopyProjectV1 fs d ca sa da).1.err = none
    ∧ (CopyProjectV2 fs d ca sa da).1.err = none
    ∧ (∀ (cid src0 : String) (t : FileNode), cid ≠ "" → src0 ≠ "" →
        fs (goClean src0) = StatResult.dirInfo t →
        d.newClientErr = none → d.inspectErr cid = none →
        (∀ p, d.copyErr cid p = none) →
        (CopyProjectV1 fs d (.str cid) (.str src0) da).1.text
          = "Successfully copied " ++ goClean src0 ++ " to "
            ++ (resolveDestV1 da.asString).1 ++ " in container " ++ cid)
    ∧ (∀ (cid src0 : String) (t : FileNode), cid ≠ "" → src0 ≠ "" →
        fs (goClean src0) = StatResult.dirInfo t →
        d.newClientErr = none → d.inspectErr cid = none →
        (∀ p, d.mkdirErr p = none) → (∀ p, d.copyErr cid p = none) →
        (CopyProjectV2 fs d (.str cid) (.str src0) da).1.text
          = "Successfully copied " ++ goClean src0 ++ " to "
            ++ resolveDestV2 (goClean src0) da.asString ++ " in container " ++ cid) := by
  refine ⟨CopyProjectV1_err_none fs d ca sa da, CopyProjectV2_err_none fs d ca sa da, ?_, ?_⟩
  · intro cid src0 t hcid hsrc hstat hcl hin hcp
    simp [CopyProjectV1, asString_str, hcid, hsrc, hstat,
      copyToContainerV1, hcl, hin, hcp]
  · intro cid src0 t hcid hsrc hstat hcl hin hmk hcp
    simp [CopyProjectV2, asString_str, hcid, hsrc, hstat,
      copyToContainerV2, hcl, hin, hmk, hcp]

/-- Witness for C8: a fully successful V1 and V2 run on the sample tree. -/
theorem copyproject_plain_text_witness :
    (CopyProjectV1 fsSample oracleOk (.str "c1") (.str "./proj") .missing).1.err = none
    ∧ (CopyProjectV1 fsSample oracleOk (.str "c1") (.str "./proj") .missing).1.text
        = "Successfully copied " ++ goClean "./proj" ++ " to "
          ++ (resolveDestV1 (ArgLookup.missing).asString).1 ++ " in container " ++ "c1"
    ∧ (CopyProjectV2 fsSample oracleOk (.str "c1") (.str "./proj") .missing).1.text
        = "Successfully copied " ++ goClean "./proj" ++ " to "
          ++ resolveDestV2 (goClean "./proj") (ArgLookup.missing).asString
          ++ " in container " ++ "c1" := by
  have h := copyproject_plain_text_contract fsSample oracleOk (.str "c1") (.str "./proj")
    ArgLookup.missing
  exact ⟨h.1,
    h.2.2.1 "c1" "./proj" sampleTree (by decide) (by decide) rfl rfl rfl (fun _ => rfl),
    h.2.2.2 "c1" "./proj" sampleTree (by decide) (by decide) rfl rfl rfl (fun _ => rfl)
      (fun _ => rfl)⟩

/-- Helper: `copyToContainer` (V1) always records its own invocation, with
the target path and archive it was given, first in its effect list. -/
theorem copyToContainerV1_copyFn (d : DockerOracle) (cid p : String) (a : List TarEntry) :
    Effect.copyFn cid p a ∈ (copyToContainerV1 d cid p a).2 := by
  unfold copyToContainerV1
  repeat' split
  all_goals simp

/-- Helper: `copyToContainer` (V2) always records its own invocation first in
its effect list. -/
theorem copyToContainerV2_copyFn (d : DockerOracle) (cid p : String) (a : List TarEntry) :
    Effect.copyFn cid p a ∈ (copyToContainerV2 d cid p a).2 := by
  unfold copyToContainerV2
  repeat' split
  all_goals simp

/-- Helper: with valid arguments and a directory source, V1's effect list is
the stat, the walk, then the effects of `copyToContainer` applied to the
mode-dependent target path and archive. -/
theorem CopyProjectV1_effects (fs : String → StatResult) (d : DockerOracle)
    (cid src0 : String) (da : ArgLookup) (t : FileNode)
    (hcid : cid ≠ "") (hsrc : src0 ≠ "")
    (hstat : fs (goClean src0) = StatResult.dirInfo t) :
    (CopyProjectV1 fs d (.str cid) (.str src0) da).2
      = Effect.statSrc (goClean src0) :: Effect.walkSrc (goClean src0) ::
        (copyToContainerV1 d cid
          (if (resolveDestV1 da.asString).2 then (resolveDestV1 da.asString).1
           else goDir (resolveDestV1 da.asString).1)
          (createTarArchive (goClean src0) (resolveDestV1 da.asString).2 t)).2 := by
  simp only [CopyProjectV1, asString_str]
  rw [if_neg hcid, if_neg hsrc, hstat]
  rcases hcr : (copyToContainerV1 d cid
      (if (resolveDestV1 da.asString).2 then (resolveDestV1 da.asString).1
       else goDir (resolveDestV1 da.asString).1)
      (createTarArchive (goClean src0) (resolveDestV1 da.asString).2 t)).1 with e | u
  all_goals simp [hcr]

/-- Helper: with valid arguments and a directory source, V2's effect list is
the stat, the walk, then the effects of `copyToContainer` applied to the
destination's parent directory and the nested archive. -/
theorem CopyProjectV2_effects (fs : String → StatResult) (d : DockerOracle)
    (cid src0 : String) (da : ArgLookup) (t : FileNode)
    (hcid : cid ≠ "") (hsrc : src0 ≠ "")
    (hstat : fs (goClean src0) = StatResult.dirInfo t) :
    (CopyProjectV2 fs d (.str cid) (.str src0) da).2
      = Effect.statSrc (goClean src0) :: Effect.walkSrc (goClean src0) ::
        (copyToContainerV2 d cid (goDir (resolveDestV2 (goClean src0) da.asString))
          (createTarArchiveV2 (goClean src0) t)).2 := by
  simp only [CopyProjectV2, asString_str]
  rw [if_neg hcid, if_neg hsrc, hstat]
  rcases hcr : (copyToContainerV2 d cid (goDir (resolveDestV2 (goClean src0) da.asString))
      (createTarArchiveV2 (goClean src0) t)).1 with e | u
  all_goals simp [hcr]

/-- C4: with valid arguments and a directory source, the archive and copy
target follow the active mode. V1 invokes `copyToContainer` on the resolved
destination itself with the contents-only archive when the flag is set, and
on the destination's parent with the nested archive otherwise; the
contents-only archive names every entry by its relative path, the nested
archive by `filepath.Join(baseName, relPath)`. V2 always invokes it on the
parent with the nested archive. -/
theorem copy_mode_correspondence (fs : String → StatResult) (d : DockerOracle)
    (cid src0 : String) (da : ArgLookup) (t : FileNode)
    (hcid : cid ≠ "") (hsrc : src0 ≠ "")
    (hstat : fs (goClean src0) = StatResult.dirInfo t) :
    Effect.copyFn cid
        (if (resolveDestV1 da.asString).2 then (resolveDestV1 da.asString).1
         else goDir (resolveDestV1 da.asString).1)
        (createTarArchive (goClean src0) (resolveDestV1 da.asString).2 t)
      ∈ (CopyProjectV1 fs d (.str cid) (.str src0) da).2
    ∧ (createTarArchive (goClean src0) true t).map TarEntry.name
        = (treeEntries t).map (fun e => renderRel e.1)
    ∧ (∀ s : String, (createTarArchive s false t).map TarEntry.name
        = (treeEntries t).map (fun e => goJoin (goBase (goClean s)) (renderRel e.1)))
    ∧ Effect.copyFn cid (goDir (resolveDestV2 (goClean src0) da.asString))
        (createTarArchiveV2 (goClean src0) t)
      ∈ (CopyProjectV2 fs d (.str cid) (.str src0) da).2
    ∧ (∀ s : String, (createTarArchiveV2 s t).map TarEntry.name
        = (treeEntries t).map (fun e => goJoin (goBase (goClean s)) (renderRel e.1))) := by
  refine ⟨?_, ?_, ?_, ?_, ?_⟩
  · rw [CopyProjectV1_effects fs d cid src0 da t hcid hsrc hstat]
    exact List.mem_cons_of_mem _ (List.mem_cons_of_mem _ (copyToContainerV1_copyFn d cid _ _))
  · rw [createTarArchive_entries, List.map_map]
    rfl
  · intro s
    rw [createTarArchive_entries, List.map_map]
    rfl
  · rw [CopyProjectV2_effects fs d cid src0 da t hcid hsrc hstat]
    exact List.mem_cons_of_mem _ (List.mem_cons_of_mem _ (copyToContainerV2_copyFn d cid _ _))
  · intro s
    rw [createTarArchiveV2_entries, List.map_map]
    rfl

/-- Witness for C4: a concrete contents-only V1 run and a V2 run on the
sample tree. -/
theorem copy_mode_correspondence_witness :
    Effect.copyFn "c1"
        (if (resolveDestV1 (ArgLookup.missing).asString).2
         then (resolveDestV1 (ArgLookup.missing).asString).1
         else goDir (resolveDestV1 (ArgLookup.missing).asString).1)
        (createTarArchive (goClean "proj") (resolveDestV1 (ArgLookup.missing).asString).2
          sampleTree)
      ∈ (CopyProjectV1 fsSample oracleOk (.str "c1") (.str "proj") .missing).2
    ∧ Effect.copyFn "c1" (goDir (resolveDestV2 (goClean "proj") (ArgLookup.missing).asString))
        (createTarArchiveV2 (goClean "proj") sampleTree)
      ∈ (CopyProjectV2 fsSample oracleOk (.str "c1") (.str "proj") .missing).2 := by
  have h := copy_mode_correspondence fsSample oracleOk "c1" "proj" ArgLookup.missing
    sampleTree (by decide) (by decide) rfl
  exact ⟨h.1, h.2.2.2.1⟩

end CodeSandbox
